import Mathlib

/-!
Verification of the line-cleaning pipeline in `src/main.rs` of
aikow/regex-replacer.

The program reads a pattern configuration (a list of removal regexes and
an ordered list of (regex, replacement) substitution rules), then for each
language file reads the input line by line: a line matched by any removal
regex is dropped and counted as skipped; every other line is rewritten by
folding the substitution rules over it with `Regex::replace` and written
to the output file.

Shallow embedding conventions:
- A line of text is a `List Char`.
- The external `regex` crate is modelled by `SRegex`, covering exactly the
  pattern language the claims exercise: an optional leading `^` anchor
  followed by a literal, matched with the crate's leftmost-match rule.
  `RegexSet::is_match` is `matches_removal` (any member matches);
  `Regex::replace` is `SRegex.replaceFirst`, which rewrites only the
  leftmost match (the crate's `replace`, as opposed to `replace_all`) with
  a `$`-free replacement template, the only kind the claims use.
- The per-line worker loop (src/main.rs lines 125-150) is `processLines`,
  which returns the output lines together with the `lines_total` and
  `lines_skipped` counters.  The counters are Rust integers; they stay
  within range for any realistic file, so they are modelled as `Nat`.
- Rust panics (`unwrap` / `expect`) are modelled by explicit `panicked`
  constructors so that the difference between a panic and a typed
  recoverable error is visible in the model.
-/

/-- Model of a compiled regex from the external `regex` crate, restricted
to the pattern language used in the configuration patterns under test: an
optional leading `^` anchor followed by a literal string. -/
structure SRegex where
  anchored : Bool
  lit : List Char
deriving DecidableEq

/-- Leftmost occurrence of the literal `lit` in `s`, as a start index:
the `regex` crate's leftmost-match rule specialised to literal patterns. -/
def findLit (lit : List Char) : List Char → Option Nat
  | [] => if lit.isPrefixOf ([] : List Char) then some 0 else none
  | c :: t =>
    if lit.isPrefixOf (c :: t) then some 0
    else (findLit lit t).map (fun n => n + 1)

/-- Start index of the leftmost match of `r` in `s`, or `none` when `r`
does not match: an anchored pattern may only match at index 0. -/
def SRegex.findFirst (r : SRegex) (s : List Char) : Option Nat :=
  if r.anchored then (if r.lit.isPrefixOf s then some 0 else none)
  else findLit r.lit s

/-- `Regex::is_match`: does `r` match anywhere in `s`? -/
def SRegex.isMatch (r : SRegex) (s : List Char) : Bool :=
  (r.findFirst s).isSome

/-- `Regex::replace` (src/main.rs line 143): replace the leftmost match of
`r` in `s` by `repl`; when `r` does not match, return `s` unchanged.  The
claims only use replacement templates without `$` back-references, for
which the crate's template expansion is the identity. -/
def SRegex.replaceFirst (r : SRegex) (repl : List Char) (s : List Char) : List Char :=
  match r.findFirst s with
  | none => s
  | some i => s.take i ++ repl ++ s.drop (i + r.lit.length)

/-- One substitution rule (`ReplacePattern`, src/main.rs lines 12-15). -/
structure ReplacePattern where
  regex : SRegex
  replacement : List Char
deriving DecidableEq

/-- The compiled pattern set (`Patterns`, src/main.rs lines 17-20):
`remove` models the `RegexSet`, `replace` the ordered substitution
rules. -/
structure Patterns where
  remove : List SRegex
  replace : List ReplacePattern

/-- `RegexSet::is_match` (src/main.rs line 134): true iff any removal
pattern matches the line. -/
def matches_removal (rs : List SRegex) (line : List Char) : Bool :=
  rs.any (fun r => r.isMatch line)

/-- The substitution fold of the worker closure (src/main.rs lines
140-144): each rule's `Regex::replace` runs on the output of the previous
rule, in configuration order. -/
def apply_substitutions (rules : List ReplacePattern) (line : List Char) : List Char :=
  rules.foldl (fun line p => p.regex.replaceFirst p.replacement line) line

/-- The Line Processor: `none` when the line is dropped by a removal
pattern (src/main.rs lines 134-137), otherwise the substituted line
(lines 140-144). -/
def process_line (ps : Patterns) (line : List Char) : Option (List Char) :=
  if matches_removal ps.remove line then none
  else some (apply_substitutions ps.replace line)

/-- Result of the worker loop: the lines written to the output file, in
order, and the two counters of src/main.rs lines 125-126. -/
structure WorkerResult where
  output : List (List Char)
  lines_total : Nat
  lines_skipped : Nat
deriving DecidableEq

/-- The worker loop over the input lines (src/main.rs lines 128-147):
count every line, drop and count lines matched by a removal pattern, fold
the substitution rules over the rest and write the result. -/
def processLines (ps : Patterns) : List (List Char) → WorkerResult
  | [] => { output := [], lines_total := 0, lines_skipped := 0 }
  | line :: rest =>
    if matches_removal ps.remove line then
      let r := processLines ps rest
      { output := r.output,
        lines_total := r.lines_total + 1,
        lines_skipped := r.lines_skipped + 1 }
    else
      let r := processLines ps rest
      { output := apply_substitutions ps.replace line :: r.output,
        lines_total := r.lines_total + 1,
        lines_skipped := r.lines_skipped }

/-- `lines_remaining` (src/main.rs line 150). -/
def lines_remaining (r : WorkerResult) : Nat :=
  r.lines_total - r.lines_skipped

/-- The retention percentage printed at src/main.rs line 155,
`(lines_remaining as f32 / lines_total as f32) * 100.0`, modelled over
`ℚ`.  In Rust the `f32` division by zero at `lines_total = 0` yields NaN,
a defined value produced without panicking; in this model division by
zero yields 0, likewise a defined value. -/
def retention_pct (remaining total : Nat) : ℚ :=
  ((remaining : ℚ) / (total : ℚ)) * 100

/-- Outcome of the pattern-compilation stage of `parse_patterns`:
either a compiled `Patterns` value or a Rust panic raised by `unwrap`. -/
inductive ParseOutcome where
  | ok (p : Patterns)
  | panicked (msg : String)

/-- The pattern-compilation stage of `parse_patterns` (src/main.rs lines
41-49).  The `regex` crate's compiler is an external collaborator; each
raw pattern string is represented here by its compile result: `some`
compiled regex, or `none` for a string that is not a valid regular
expression (such as an unbalanced group).  `RegexSet::new(remove)` fails
if any removal pattern fails to compile and the code calls `.unwrap()` on
that result, which panics; likewise `Regex::new(&regex).unwrap()` for
each substitution rule.  No recoverable error value is ever produced for
a compile failure. -/
def parse_patterns (remove : List (Option SRegex))
    (replace : List (Option SRegex × List Char)) : ParseOutcome :=
  match remove.mapM id with
  | none => ParseOutcome.panicked "called unwrap on a regex compile error"
  | some rs =>
    match replace.mapM (fun p => p.1.map (fun r => ReplacePattern.mk r p.2)) with
    | none => ParseOutcome.panicked "called unwrap on a regex compile error"
    | some rp => ParseOutcome.ok { remove := rs, replace := rp }

/-- Outcome of one worker thread: its statistics on success, or a Rust
panic raised by `expect`. -/
inductive WorkerOutcome where
  | ok (r : WorkerResult)
  | panicked (msg : String)

/-- One worker thread (src/main.rs lines 114-157).  The filesystem is an
external collaborator: the input file is `some` list of lines when the
path can be opened, `none` when it cannot.  The second component of the
result is the output file's contents, `none` when no output file was
created.  `File::open(&input).expect(..)` at line 115 panics before
`File::create(&output)` at line 117 runs, so when the input cannot be
opened the thread panics and no output file is created or truncated. -/
def run_pipeline (ps : Patterns) (input : Option (List (List Char))) :
    WorkerOutcome × Option (List (List Char)) :=
  match input with
  | none => (WorkerOutcome.panicked "Unable to open file", none)
  | some lines =>
    let r := processLines ps lines
    (WorkerOutcome.ok r, some r.output)

/-- The substitution rule x → y of the claims. -/
def xy : ReplacePattern :=
  { regex := { anchored := false, lit := ['x'] }, replacement := ['y'] }

/-- The substitution rule a → b of the claims. -/
def ab : ReplacePattern :=
  { regex := { anchored := false, lit := ['a'] }, replacement := ['b'] }

/-- The substitution rule b → c of the claims. -/
def bc : ReplacePattern :=
  { regex := { anchored := false, lit := ['b'] }, replacement := ['c'] }

/-- The removal pattern `^#` of the end-to-end scenario: anchored at the
start of the line. -/
def hashRemove : SRegex := { anchored := true, lit := ['#'] }

/-- The substitution rule foo → bar of the end-to-end scenario. -/
def fooBar : ReplacePattern :=
  { regex := { anchored := false, lit := ['f','o','o'] }, replacement := ['b','a','r'] }

/-- The pattern set of the end-to-end scenario: removal `^#`,
substitution foo → bar. -/
def ps7 : Patterns := { remove := [hashRemove], replace := [fooBar] }

/-- Characterization of the worker loop: the output is the substitution
image of the lines that match no removal pattern, in input order;
`lines_total` counts every input line and `lines_skipped` the lines
matched by a removal pattern. -/
theorem processLines_spec (ps : Patterns) (lines : List (List Char)) :
    processLines ps lines =
      { output := (lines.filter (fun l => !(matches_removal ps.remove l))).map
          (apply_substitutions ps.replace),
        lines_total := lines.length,
        lines_skipped := (lines.filter (fun l => matches_removal ps.remove l)).length } := by
  induction lines with
  | nil => rfl
  | cons l t ih =>
    cases h : matches_removal ps.remove l with
    | true => simp [processLines, h, ih, List.filter_cons]
    | false => simp [processLines, h, ih, List.filter_cons]

/-- Claim C1 is false on the code: applying the substitution rule x → y
to the line "xxx" does not yield "yyy", because the worker's fold uses
`Regex::replace`, which rewrites only the first match. -/
theorem c1_counterexample :
    ¬ (apply_substitutions [xy] (['x','x','x']) = ['y','y','y']) := by decide

/-- Claim C1 as amended: in the per-line fold each substitution rule
replaces only the first (leftmost) non-overlapping match of its regex
within the line, so applying x → y to "xxx" yields "yxx". -/
theorem c1_first_match_only :
    (∀ (p : ReplacePattern) (line : List Char),
      apply_substitutions [p] line = p.regex.replaceFirst p.replacement line) ∧
    apply_substitutions [xy] (['x','x','x']) = ['y','x','x'] :=
  ⟨fun _ _ => rfl, by decide⟩

/-- Claim C2: removal patterns are evaluated against the original,
untransformed line, and a matching line is dropped before any
substitution rule runs: the worker's output is exactly the substitution
image of those input lines that match no removal pattern. -/
theorem c2_filter_before_substitute (ps : Patterns) (lines : List (List Char)) :
    (processLines ps lines).output =
      (lines.filter (fun l => !(matches_removal ps.remove l))).map
        (apply_substitutions ps.replace) := by
  rw [processLines_spec]

/-- Claim C3: substitution rules apply in configuration order, each on
the output of the previous one, so for rules [R1, R2] the result is
R2.apply(R1.apply(line)); with a → b then b → c, input "a" gives "c". -/
theorem c3_substitution_order :
    (∀ (r1 r2 : ReplacePattern) (line : List Char),
      apply_substitutions [r1, r2] line =
        r2.regex.replaceFirst r2.replacement
          (r1.regex.replaceFirst r1.replacement line)) ∧
    apply_substitutions [ab, bc] (['a']) = ['c'] :=
  ⟨fun _ _ _ => rfl, by decide⟩

/-- Claim C4: a line is dropped by the Line Processor iff at least one
removal pattern of the set matches somewhere in the line; the removal
set is a membership test over its patterns. -/
theorem c4_drop_iff_removal_match (ps : Patterns) (line : List Char) :
    ((process_line ps line).isNone = matches_removal ps.remove line) ∧
    (matches_removal ps.remove line = true ↔
      ∃ r ∈ ps.remove, r.isMatch line = true) := by
  refine ⟨?_, by simp [matches_removal, List.any_eq_true]⟩
  unfold process_line
  cases h : matches_removal ps.remove line <;> simp [h]

/-- Claim C5: for an input of T lines of which S match a removal pattern
the worker reports lines_total = T, lines_skipped = S and
lines_remaining = T − S; and on an empty input (T = 0) the retention
percentage is still a defined value, computed without crashing. -/
theorem c5_statistics (ps : Patterns) (lines : List (List Char)) :
    (processLines ps lines).lines_total = lines.length ∧
    (processLines ps lines).lines_skipped =
      (lines.filter (fun l => matches_removal ps.remove l)).length ∧
    lines_remaining (processLines ps lines) =
      lines.length - (lines.filter (fun l => matches_removal ps.remove l)).length ∧
    retention_pct (lines_remaining (processLines ps []))
      ((processLines ps []).lines_total) = 0 := by
  refine ⟨?_, ?_, ?_, ?_⟩
  · rw [processLines_spec]
  · rw [processLines_spec]
  · unfold lines_remaining; rw [processLines_spec]
  · simp [processLines, lines_remaining, retention_pct]

/-- Claim C6: the kept lines appear in the output in the same relative
order as in the input: the output is the substitution image of a sublist
of the input lines. -/
theorem c6_order_preservation (ps : Patterns) (lines : List (List Char)) :
    ∃ kept : List (List Char), kept.Sublist lines ∧
      (processLines ps lines).output = kept.map (apply_substitutions ps.replace) :=
  ⟨lines.filter (fun l => !(matches_removal ps.remove l)),
    List.filter_sublist lines, by rw [processLines_spec]⟩

/-- Claim C7: with removal pattern `^#` and substitution foo → bar, the
input lines "# comment", "foo baz", "hello foo world" produce exactly
the output lines "bar baz", "hello bar world", with total = 3,
skipped = 1 and remaining = 2. -/
theorem c7_end_to_end :
    processLines ps7
        [('#' :: " comment".data), ("foo baz".data), ("hello foo world".data)] =
      { output := [("bar baz".data), ("hello bar world".data)],
        lines_total := 3, lines_skipped := 1 } ∧
    lines_remaining (processLines ps7
        [('#' :: " comment".data), ("foo baz".data), ("hello foo world".data)]) = 2 := by
  constructor <;> decide

/-- Claim C8 is about intended behavior the code does not implement: when
a removal pattern fails to compile (its compile result is `none`, e.g.
for the raw pattern "("), `parse_patterns` panics through `unwrap`
instead of returning a recoverable PatternCompileError; with valid
patterns it succeeds. -/
theorem c8_pattern_compile_panic :
    parse_patterns [none] [] =
      ParseOutcome.panicked "called unwrap on a regex compile error" ∧
    parse_patterns [some hashRemove] [] =
      ParseOutcome.ok { remove := [hashRemove], replace := [] } :=
  ⟨rfl, rfl⟩

/-- Claim C9 is about intended behavior the code does not implement: when
the input path cannot be opened the worker panics through
`expect("Unable to open file")` instead of failing with a recoverable
InputOpenError; the panic does occur before `File::create`, so no output
file is created or truncated (second component `none`). -/
theorem c9_input_open_panic :
    run_pipeline ps7 none = (WorkerOutcome.panicked "Unable to open file", none) :=
  rfl

/-- Claim C10: at every loop state (after any list of processed lines)
the skipped counter is at most the total counter, so the subtraction
`lines_total - lines_skipped` never underflows, and the remaining count
equals the number of lines written to the output. -/
theorem c10_skipped_le_total (ps : Patterns) (lines : List (List Char)) :
    (processLines ps lines).lines_skipped ≤ (processLines ps lines).lines_total ∧
    lines_remaining (processLines ps lines) =
      (processLines ps lines).output.length := by
  rw [processLines_spec]
  refine ⟨List.length_filter_le _ _, ?_⟩
  simp only [lines_remaining, List.length_map]
  rw [lines.length_eq_length_filter_add (fun l => matches_removal ps.remove l)]
  simp [Nat.add_sub_cancel_left]
